import Mathlib

/-!
# Ika Tensei — attestation protocol core, shallow embedding

This file embeds the core of the ika-tensei cross-chain reincarnation
protocol in Lean 4 and proves the specification's claims about it.

Source material:
* `packages/near-contracts/seal-initiator/src/{lib,payload,types}.rs` —
  the NEAR-side seal initiator (lock / complete / emergency-unlock state
  machine and the Wormhole wire-format payload builder);
* `packages/solana-program/ika-tensei-reborn/programs/ika-tensei-reborn/src/lib.rs`
  — the Solana-side minter (`mint_reborn`, Ed25519 envelope checks,
  per-signature replay guard, collection bookkeeping, provenance).

Bytes are modelled as `Nat` (values < 256), byte strings as `List Nat`.
Machine integers are `Nat` with explicit reduction modulo `2^32` / `2^64`
where the source wraps or saturates.
-/

set_option maxRecDepth 10000

deriving instance DecidableEq for Except

namespace IkaTensei

/-! ## SHA-256 (FIPS 180-4, as used via the `sha2` crate on both chains) -/

/-- 32-bit rotate right (input assumed < 2^32, output < 2^32). -/
def rotr32 (x n : Nat) : Nat :=
  ((x >>> n) ||| (x <<< (32 - n))) % 4294967296

/-- SHA-256 round constants K0..K63 (fractional parts of the cube roots
of the first 64 primes, FIPS 180-4 section 4.2.2), written in decimal. -/
def sha256K : List Nat :=
  [1116352408, 1899447441, 3049323471, 3921009573, 961987163,
   1508970993, 2453635748, 2870763221, 3624381080, 310598401,
   607225278, 1426881987, 1925078388, 2162078206, 2614888103,
   3248222580, 3835390401, 4022224774, 264347078, 604807628,
   770255983, 1249150122, 1555081692, 1996064986, 2554220882,
   2821834349, 2952996808, 3210313671, 3336571891, 3584528711,
   113926993, 338241895, 666307205, 773529912, 1294757372,
   1396182291, 1695183700, 1986661051, 2177026350, 2456956037,
   2730485921, 2820302411, 3259730800, 3345764771, 3516065817,
   3600352804, 4094571909, 275423344, 430227734, 506948616,
   659060556, 883997877, 958139571, 1322822218, 1537002063,
   1747873779, 1955562222, 2024104815, 2227730452, 2361852424,
   2428436474, 2756734187, 3204031479, 3329325298]

/-- SHA-256 initial hash state H0..H7 (fractional parts of the square
roots of the first 8 primes, FIPS 180-4 section 5.3.3), in decimal. -/
def sha256H0 : List Nat :=
  [1779033703, 3144134277, 1013904242, 2773480762,
   1359893119, 2600822924, 528734635, 1541459225]

/-- σ₀ message-schedule function. -/
def schedSigmaA (x : Nat) : Nat := (rotr32 x 7) ^^^ (rotr32 x 18) ^^^ (x >>> 3)

/-- σ₁ message-schedule function. -/
def schedSigmaB (x : Nat) : Nat := (rotr32 x 17) ^^^ (rotr32 x 19) ^^^ (x >>> 10)

/-- Extend a 16-word message block by `n` further schedule words. -/
def extendW : Nat → List Nat → List Nat
  | 0, w => w
  | n + 1, w =>
      let L := w.length
      extendW n (w ++ [(schedSigmaB (w.getD (L - 2) 0) + w.getD (L - 7) 0 +
                        schedSigmaA (w.getD (L - 15) 0) + w.getD (L - 16) 0) % 4294967296])

/-- One SHA-256 compression round on state `[a,b,c,d,e,f,g,h]`. -/
def sha256Round (k w : Nat) (s : List Nat) : List Nat :=
  let a := s.getD 0 0
  let b := s.getD 1 0
  let c := s.getD 2 0
  let d := s.getD 3 0
  let e := s.getD 4 0
  let f := s.getD 5 0
  let g := s.getD 6 0
  let h := s.getD 7 0
  let S1 := (rotr32 e 6) ^^^ (rotr32 e 11) ^^^ (rotr32 e 25)
  let ch := (e &&& f) ^^^ ((e ^^^ 0xffffffff) &&& g)
  let t1 := (h + S1 + ch + k + w) % 4294967296
  let S0 := (rotr32 a 2) ^^^ (rotr32 a 13) ^^^ (rotr32 a 22)
  let mj := (a &&& b) ^^^ (a &&& c) ^^^ (b &&& c)
  let t2 := (S0 + mj) % 4294967296
  [(t1 + t2) % 4294967296, a, b, c, (d + t1) % 4294967296, e, f, g]

/-- Run the 64 compression rounds. -/
def sha256Rounds : List (Nat × Nat) → List Nat → List Nat
  | [], s => s
  | (k, w) :: rest, s => sha256Rounds rest (sha256Round k w s)

/-- Big-endian 32-bit words from bytes (length assumed a multiple of 4). -/
def toWords32 : Nat → List Nat → List Nat
  | 0, _ => []
  | _ + 1, a :: b :: c :: d :: rest =>
      (a * 16777216 + b * 65536 + c * 256 + d) :: toWords32 rest.length rest
  | _ + 1, _ => []

/-- Compress one 64-byte block into the running hash state. -/
def sha256Block (hs : List Nat) (block : List Nat) : List Nat :=
  let w := extendW 48 (toWords32 block.length block)
  let s := sha256Rounds (sha256K.zip w) hs
  (hs.zip s).map (fun p => (p.1 + p.2) % 4294967296)

/-- Split a byte list into 64-byte chunks (fuel-driven, structurally). -/
def chunks64 : Nat → List Nat → List (List Nat)
  | 0, _ => []
  | _, [] => []
  | fuel + 1, xs => xs.take 64 :: chunks64 fuel (xs.drop 64)

/-- 8-byte big-endian encoding of a Nat (mod 2^64). -/
def beBytes8 (n : Nat) : List Nat :=
  [(n >>> 56) % 256, (n >>> 48) % 256, (n >>> 40) % 256, (n >>> 32) % 256,
   (n >>> 24) % 256, (n >>> 16) % 256, (n >>> 8) % 256, n % 256]

/-- SHA-256 padding: append `0x80`, zero bytes to 56 mod 64, then the
bit length as a big-endian 64-bit integer. -/
def sha256Pad (msg : List Nat) : List Nat :=
  let L := msg.length
  let zeros := (119 - L % 64) % 64
  msg ++ [0x80] ++ List.replicate zeros 0 ++ beBytes8 (8 * L)

/-- SHA-256 of a byte string, as 32 output bytes. -/
def sha256 (msg : List Nat) : List Nat :=
  let padded := sha256Pad msg
  let hs := (chunks64 padded.length padded).foldl sha256Block sha256H0
  hs.foldr (fun w acc =>
    (w >>> 24) % 256 :: (w >>> 16) % 256 :: (w >>> 8) % 256 :: w % 256 :: acc) []

/-! ## Generic helpers: association-list maps (NEAR `LookupMap`), sets, integers

NEAR's `LookupMap`/`LookupSet` and the Solana account table are key-value
stores with at most one record per key; we model them as association lists
with insert-replaces-first / remove-all semantics, and prove the
one-record-per-key invariant explicitly.
-/

/-- Look a key up in an association list (first match). -/
def mapGet {κ α : Type} [DecidableEq κ] : List (κ × α) → κ → Option α
  | [], _ => none
  | (k', v) :: rest, k => if k' = k then some v else mapGet rest k

/-- Insert, replacing the first existing entry for the key if present. -/
def mapInsert {κ α : Type} [DecidableEq κ] : List (κ × α) → κ → α → List (κ × α)
  | [], k, v => [(k, v)]
  | (k', v') :: rest, k, v =>
      if k' = k then (k, v) :: rest else (k', v') :: mapInsert rest k v

/-- Remove every entry for a key. -/
def mapRemove {κ α : Type} [DecidableEq κ] : List (κ × α) → κ → List (κ × α)
  | [], _ => []
  | (k', v') :: rest, k =>
      if k' = k then mapRemove rest k else (k', v') :: mapRemove rest k

/-- Number of entries stored under a key. -/
def keyCount {κ α : Type} [DecidableEq κ] (k : κ) (m : List (κ × α)) : Nat :=
  (m.filter fun p => decide (p.1 = k)).length

/-- Insert a key into a set if absent (NEAR `LookupSet::insert`). -/
def setInsert [DecidableEq κ] (s : List κ) (k : κ) : List κ :=
  if k ∈ s then s else k :: s

/-- Remove a key from a set (NEAR `LookupSet::remove`). -/
def setRemove [DecidableEq κ] (s : List κ) (k : κ) : List κ :=
  s.filter fun k' => decide (k' ≠ k)

/-- Saturating `u64` increment (`u64::saturating_add(1)`). -/
def satAdd64 (n : Nat) : Nat := min (n + 1) 18446744073709551615

/-- Big-endian bytes of a `u16` (`u16::to_be_bytes`). -/
def beBytes2 (n : Nat) : List Nat := [(n >>> 8) % 256, n % 256]

/-! ## Hex decoding (the `hex` crate, as used for `solana_receiver` and
`deposit_address` strings; strings are modelled as their byte lists) -/

/-- Value of one ASCII hex digit. -/
def hexDigit? (c : Nat) : Option Nat :=
  if 48 ≤ c ∧ c ≤ 57 then some (c - 48)
  else if 97 ≤ c ∧ c ≤ 102 then some (c - 87)
  else if 65 ≤ c ∧ c ≤ 70 then some (c - 55)
  else none

/-- Decode an even-length ASCII hex string to bytes (`hex::decode`). -/
def hexDecode : List Nat → Option (List Nat)
  | [] => some []
  | h :: l :: rest =>
      match hexDigit? h, hexDigit? l, hexDecode rest with
      | some a, some b, some tail => some ((a * 16 + b) :: tail)
      | _, _, _ => none
  | [_] => none

/-- Drop a leading `"0x"` from a byte string (`str::strip_prefix("0x")`,
falling back to the string itself). -/
def dropHexMark (s : List Nat) : List Nat :=
  match s with
  | 48 :: 120 :: rest => rest
  | _ => s

/-! ## PayloadCodec — `seal-initiator/src/payload.rs` -/

/-- Wormhole chain ID for NEAR (`WORMHOLE_CHAIN_ID_NEAR`). -/
def WORMHOLE_CHAIN_ID_NEAR : Nat := 15

/-- Payload type tag for a seal attestation (`PAYLOAD_TYPE_SEAL`). -/
def PAYLOAD_TYPE_SEAL : Nat := 0x01

/-- Encode a NEAR account ID into 32 bytes via SHA-256
(`encode_near_account`). -/
def encode_near_account (account_id : List Nat) : List Nat := sha256 account_id

/-- Encode a NEAR token ID into 32 bytes via SHA-256
(`encode_near_token_id`). -/
def encode_near_token_id (token_id : List Nat) : List Nat := sha256 token_id

/-- Decode a hex-encoded 32-byte value (`decode_hex_32`). The source
asserts the length and panics on bad hex; panics are modelled as errors
carrying the panic message. -/
def decode_hex_32 (hex_str : List Nat) : Except String (List Nat) :=
  let clean := dropHexMark hex_str
  if clean.length = 64 then
    match hexDecode clean with
    | some bytes => .ok bytes
    | none => .error "Invalid hex in deposit_address"
  else .error "deposit_address must be 64 hex chars (32 bytes)"

/-- Build the binary Wormhole payload (`build_seal_payload`): tag, chain id
big-endian, hashed contract id, hashed token id, raw 32-byte deposit
reference, raw 32-byte receiver, raw unterminated URI bytes. -/
def build_seal_payload (nft_contract token_id deposit_address : List Nat)
    (solana_receiver : List Nat) (token_uri : List Nat) :
    Except String (List Nat) :=
  match decode_hex_32 deposit_address with
  | .error e => .error e
  | .ok dep =>
      .ok ([PAYLOAD_TYPE_SEAL] ++ beBytes2 WORMHOLE_CHAIN_ID_NEAR ++
           encode_near_account nft_contract ++ encode_near_token_id token_id ++
           dep ++ solana_receiver ++ token_uri)

/-- Maximum token URI length on the NEAR side (`MAX_URI_LENGTH` in
`seal-initiator/src/lib.rs`). -/
def MAX_URI_LENGTH : Nat := 2048

/-- Encode a seal intent the way `on_nft_metadata_received` does: the URI
length gate followed by `build_seal_payload`. This is the full failure
surface of encoding on the NEAR side. -/
def encode_seal (nft_contract token_id deposit_address : List Nat)
    (solana_receiver : List Nat) (token_uri : List Nat) :
    Except String (List Nat) :=
  if token_uri.length > MAX_URI_LENGTH then .error "URI too long"
  else build_seal_payload nft_contract token_id deposit_address
        solana_receiver token_uri

/-! ## SealLifecycle — `seal-initiator/src/lib.rs`

NEAR strings (`AccountId`, token IDs, URIs, hex strings) are modelled as
their byte lists. Cross-contract promise chains execute the callback
bodies; the composite `complete_seal` operation chains
`complete_seal_initiation` → `on_nft_metadata_received` →
`on_wormhole_published`, with the externally returned Wormhole sequence
number supplied as an argument. Panics/`require!` failures abort the
operation with the message and leave state unchanged, which is how NEAR
rolls back a failed function call.
-/

/-- Minimum delay before emergency unlock (`EMERGENCY_UNLOCK_DELAY_NS`,
24 hours in nanoseconds). -/
def EMERGENCY_UNLOCK_DELAY_NS : Nat := 24 * 60 * 60 * 1000000000

/-- Parsed `msg` JSON of `nft_transfer_call` (`SealMsg` in `types.rs`). -/
structure SealMsg where
  deposit_address : List Nat
  solana_receiver : List Nat
deriving DecidableEq

/-- Pending seal record (`PendingSeal` in `types.rs`). -/
structure PendingSeal where
  nft_contract : List Nat
  token_id : List Nat
  deposit_address : List Nat
  solana_receiver : List Nat
  completed : Bool
  wormhole_sequence : Nat
  created_at : Nat
deriving DecidableEq

/-- Completed seal record (`SealRecord` in `types.rs`). -/
structure SealRecord where
  nft_contract : List Nat
  token_id : List Nat
  deposit_address : List Nat
  solana_receiver : List Nat
  token_uri : List Nat
  wormhole_sequence : Nat
  source_chain_id : Nat
  sealed_at : Nat
deriving DecidableEq

/-- Contract state of `SealInitiator`. -/
structure SealState where
  wormhole_account : List Nat
  sequence : Nat
  sealed_nfts : List (List Nat)
  pending_seals : List (List Nat × PendingSeal)
  seal_records : List (List Nat × SealRecord)
  owner : List Nat
  paused : Bool
deriving DecidableEq

/-- Deploy-time initialization (`SealInitiator::new`). -/
def SealState.new (wormhole_account owner : List Nat) : SealState :=
  { wormhole_account, sequence := 0, sealed_nfts := [], pending_seals := [],
    seal_records := [], owner, paused := false }

/-- Replay-protection key: SHA-256 of contract id ‖ token id
(`compute_seal_key`). -/
def compute_seal_key (nft_contract token_id : List Nat) : List Nat :=
  sha256 (nft_contract ++ token_id)

/-- Lock an NFT (`nft_on_transfer`). The boolean result is NEP-171's
refund flag: `true` returns the NFT to the sender, `false` keeps it
locked. The `msg` argument carries `serde_json`'s parse result (`none`
for malformed JSON). -/
def nft_on_transfer (s : SealState) (nft_contract _sender_id token_id : List Nat)
    (msg : Option SealMsg) (now : Nat) : Bool × SealState :=
  if s.paused then (true, s)
  else
    match msg with
    | none => (true, s)
    | some seal_msg =>
      let receiver_hex := dropHexMark seal_msg.solana_receiver
      if receiver_hex.length ≠ 64 then (true, s)
      else
        match hexDecode receiver_hex with
        | none => (true, s)
        | some solana_receiver =>
          if solana_receiver.length ≠ 32 then (true, s)
          else
            let seal_key := compute_seal_key nft_contract token_id
            if seal_key ∈ s.sealed_nfts then (true, s)
            else
              (false,
               { s with
                 sealed_nfts := setInsert s.sealed_nfts seal_key,
                 pending_seals := mapInsert s.pending_seals seal_key
                   { nft_contract, token_id,
                     deposit_address := seal_msg.deposit_address,
                     solana_receiver, completed := false,
                     wormhole_sequence := 0, created_at := now } })

/-- Complete a seal (`complete_seal_initiation` and its two callbacks,
with the NFT metadata URI and the Wormhole sequence number supplied by
the external collaborators). -/
def complete_seal (s : SealState) (nft_contract token_id : List Nat)
    (token_uri : List Nat) (wormhole_sequence : Nat) (now : Nat) :
    Except String SealState :=
  if s.paused then .error "Contract is paused"
  else
    let seal_key := compute_seal_key nft_contract token_id
    match mapGet s.pending_seals seal_key with
    | none => .error "No pending seal found for this NFT"
    | some pending =>
      if pending.completed then .error "Seal already completed"
      else if token_uri.length > MAX_URI_LENGTH then .error "URI too long"
      else
        match build_seal_payload nft_contract token_id
                pending.deposit_address pending.solana_receiver token_uri with
        | .error e => .error e
        | .ok _payload =>
          let s1 := { s with sequence := (s.sequence + 1) % 2 ^ 64 }
          let p' := { pending with completed := true, wormhole_sequence }
          let record : SealRecord :=
            { nft_contract, token_id,
              deposit_address := pending.deposit_address,
              solana_receiver := pending.solana_receiver, token_uri,
              wormhole_sequence,
              source_chain_id := WORMHOLE_CHAIN_ID_NEAR, sealed_at := now }
          .ok { s1 with
                pending_seals := mapInsert s1.pending_seals seal_key p',
                seal_records := mapInsert s1.seal_records seal_key record }

/-- Emergency unlock (`emergency_unlock`): owner-only, blocked while
paused, only for uncompleted pending seals, and only after the 24-hour
delay; removes the key from the sealed set and deletes the pending seal. -/
def emergency_unlock (s : SealState) (caller nft_contract token_id : List Nat)
    (now : Nat) : Except String SealState :=
  if caller ≠ s.owner then .error "Only owner can emergency unlock"
  else if s.paused then .error "Contract is paused"
  else
    let seal_key := compute_seal_key nft_contract token_id
    match mapGet s.pending_seals seal_key with
    | none => .error "No pending seal found for this NFT"
    | some pending =>
      if pending.completed then .error "Seal already completed, cannot unlock"
      else if now - pending.created_at < EMERGENCY_UNLOCK_DELAY_NS then
        .error "Emergency unlock not yet available (24h delay)"
      else
        .ok { s with
              sealed_nfts := setRemove s.sealed_nfts seal_key,
              pending_seals := mapRemove s.pending_seals seal_key }

/-- Pause or unpause (`set_paused`, owner-only). -/
def set_paused (s : SealState) (caller : List Nat) (p : Bool) :
    Except String SealState :=
  if caller ≠ s.owner then .error "Only owner"
  else .ok { s with paused := p }

/-- One user-visible operation on the seal initiator. -/
inductive SealOp where
  | lock (nft_contract sender_id token_id : List Nat) (msg : Option SealMsg)
      (now : Nat)
  | complete (nft_contract token_id token_uri : List Nat)
      (wormhole_sequence now : Nat)
  | release (caller nft_contract token_id : List Nat) (now : Nat)
  | pause (caller : List Nat) (p : Bool)

/-- Apply one operation; a failed operation leaves the state unchanged
(NEAR rolls back failed calls). -/
def sealStep (s : SealState) : SealOp → SealState
  | .lock c snd t msg now => (nft_on_transfer s c snd t msg now).2
  | .complete c t uri seq now =>
      match complete_seal s c t uri seq now with
      | .ok s' => s'
      | .error _ => s
  | .release caller c t now =>
      match emergency_unlock s caller c t now with
      | .ok s' => s'
      | .error _ => s
  | .pause caller p =>
      match set_paused s caller p with
      | .ok s' => s'
      | .error _ => s

/-- Run a sequence of operations from a state. -/
def sealRun (s : SealState) (ops : List SealOp) : SealState :=
  ops.foldl sealStep s

/-! ## MintLifecycle — `ika-tensei-reborn/programs/ika-tensei-reborn/src/lib.rs`

Solana pubkeys are 32-byte lists. PDA bump bytes (pure account-model
plumbing) are not modelled. Anchor resolves the account context before the
instruction body runs: the `init` constraints on `sig_record` and
`provenance` make the whole transaction fail when the PDA already exists;
this account-resolution failure is modelled as the dedicated error
`accountAlreadyInUse`. A failed transaction changes no state, which the
`Except` result models by carrying a new state only on success. The outer
`verify_ed25519_signature` walk over the transaction's instruction list is
instruction-sysvar plumbing; the Ed25519 precompile instruction's data
bytes are passed in directly and checked by `verify_ed25519_ix_data`,
translated verbatim.
-/

/-- Maximum lengths (`constants` module of the Solana program). -/
def MAX_URI_LENGTH_SOL : Nat := 512

/-- Maximum collection name length (`MAX_NAME_LENGTH`). -/
def MAX_NAME_LENGTH : Nat := 32

/-- Maximum contract identifier length (`MAX_CONTRACT_LENGTH`). -/
def MAX_CONTRACT_LENGTH : Nat := 64

/-- Maximum token id length (`MAX_TOKEN_ID_LENGTH`). -/
def MAX_TOKEN_ID_LENGTH : Nat := 64

/-- System program address (`System::id()`, the all-zero pubkey). -/
def systemProgramId : List Nat := List.replicate 32 0

/-- Default pubkey (`Pubkey::default()`, also all zeros). -/
def zeroPubkey : List Nat := List.replicate 32 0

/-- Error codes of the Solana program, plus `accountAlreadyInUse` for the
runtime failure of an Anchor `init` constraint on an existing PDA. -/
inductive SolErr where
  | invalidSignature
  | invalidInstructionData
  | noEd25519Instruction
  | signatureVerificationFailed
  | signatureAlreadyUsed
  | invalidSigHash
  | collectionAlreadyExists
  | alreadyMinted
  | contractTooLong
  | tokenIdTooLong
  | uriTooLong
  | nameTooLong
  | invalidReceiver
  | metaplexError
  | unauthorized
  | invalidSourceChain
  | invalidNftMint
  | invalidNftAmount
  | accountAlreadyInUse
deriving DecidableEq

/-- Mint configuration PDA (`MintConfig`): the trusted attestation pubkey,
set at initialization and never accepted as instruction input. -/
structure MintConfig where
  minting_pubkey : List Nat
  admin : List Nat
deriving DecidableEq

/-- Collection registry entry (`CollectionEntry`). -/
structure CollectionEntry where
  source_chain : Nat
  nft_contract : List Nat
  collection_address : List Nat
  created_at : Int
deriving DecidableEq

/-- Global collection registry (`CollectionRegistry`). -/
structure CollectionRegistry where
  count : Nat
  collections : List CollectionEntry
deriving DecidableEq

/-- Find a collection in the registry (`CollectionRegistry::find_collection`). -/
def CollectionRegistry.find_collection (r : CollectionRegistry)
    (source_chain : Nat) (nft_contract : List Nat) : Option CollectionEntry :=
  r.collections.find? fun c =>
    decide (c.source_chain = source_chain ∧ c.nft_contract = nft_contract)

/-- Add a collection (`CollectionRegistry::add_collection`): push the entry
and saturating-increment the count. -/
def CollectionRegistry.add_collection (r : CollectionRegistry)
    (e : CollectionEntry) : CollectionRegistry :=
  { count := satAdd64 r.count, collections := r.collections ++ [e] }

/-- Per-collection metadata PDA (`RebornCollection`). -/
structure RebornCollection where
  source_chain : Nat
  nft_contract : List Nat
  name : List Nat
  collection_asset_address : List Nat
  total_minted : Nat
  is_initialized : Bool
deriving DecidableEq

/-- Zero-filled `RebornCollection`, the content Anchor's `init_if_needed`
presents when the PDA did not exist yet. -/
def freshCollection : RebornCollection :=
  { source_chain := 0, nft_contract := [], name := [],
    collection_asset_address := [], total_minted := 0, is_initialized := false }

/-- Provenance record PDA (`Provenance`). -/
structure Provenance where
  source_chain : Nat
  nft_contract : List Nat
  token_id : List Nat
  token_uri : List Nat
  dwallet_pubkey : List Nat
  signature : List Nat
  receiver : List Nat
  sealed_at : Int
  is_initialized : Bool
deriving DecidableEq

/-- Provenance PDA key: `(source_chain, nft_contract, token_id)` (the
`provenance` account's seeds). -/
abbrev ProvKey := Nat × List Nat × List Nat

/-- Collection PDA key: `(source_chain, nft_contract)` (the `collection`
account's seeds). -/
abbrev CollKey := Nat × List Nat

/-- Ledger state owned by the Solana program. -/
structure SolState where
  used_sigs : List (List Nat)
  registry : CollectionRegistry
  provenance : List (ProvKey × Provenance)
  collections : List (CollKey × RebornCollection)
deriving DecidableEq

/-- State right after `initialize_collection_registry`. -/
def SolState.init : SolState :=
  { used_sigs := [], registry := { count := 0, collections := [] },
    provenance := [], collections := [] }

/-- Little-endian `u16` read at an index of the instruction data
(`u16::from_le_bytes([data[i], data[i+1]])`). -/
def readLE16 (data : List Nat) (i : Nat) : Nat :=
  data.getD i 0 + 256 * data.getD (i + 1) 0

/-- Bounds-checked slice (`data.get(off..off+len)`). -/
def sliceOpt (data : List Nat) (off len : Nat) : Option (List Nat) :=
  if off + len ≤ data.length then some ((data.drop off).take len) else none

/-- Inner verification of the Ed25519 precompile instruction data
(`verify_ed25519_ix_data`): parse the first signature entry's header and
require the signature bytes, public key, and 32-byte message to equal the
expected values bit for bit. -/
def verify_ed25519_ix_data (data expected_pubkey expected_message
    expected_signature : List Nat) : Except SolErr Unit :=
  if data.length < 16 then .error .invalidInstructionData
  else if data.getD 0 0 < 1 then .error .invalidInstructionData
  else
    let sig_offset := readLE16 data 2
    let pubkey_offset := readLE16 data 6
    let message_offset := readLE16 data 10
    let message_size := readLE16 data 12
    match sliceOpt data sig_offset 64 with
    | none => .error .invalidInstructionData
    | some sig_data =>
      if sig_data ≠ expected_signature then .error .signatureVerificationFailed
      else
        match sliceOpt data pubkey_offset 32 with
        | none => .error .invalidInstructionData
        | some pubkey_data =>
          if pubkey_data ≠ expected_pubkey then
            .error .signatureVerificationFailed
          else if message_size ≠ 32 then .error .signatureVerificationFailed
          else
            match sliceOpt data message_offset message_size with
            | none => .error .invalidInstructionData
            | some message_data =>
              if message_data ≠ expected_message then
                .error .signatureVerificationFailed
              else .ok ()

/-- Instruction arguments of `mint_reborn`, together with the
`collection_asset` account address and the Ed25519 precompile
instruction's data bytes that accompany the transaction. -/
structure MintArgs where
  signature : List Nat
  sig_hash : List Nat
  source_chain : Nat
  nft_contract : List Nat
  token_id : List Nat
  token_uri : List Nat
  collection_name : List Nat
  receiver : List Nat
  collection_asset : List Nat
  ed_ix_data : List Nat
deriving DecidableEq

/-- State mutation applied by a successful `mint_reborn`: mark the
signature digest used, create or reuse the collection, increment
`total_minted`, and write the provenance record. -/
def mint_apply (cfg : MintConfig) (s : SolState) (a : MintArgs) (now : Int) :
    SolState :=
  let s1 := { s with used_sigs := a.sig_hash :: s.used_sigs }
  let collKey : CollKey := (a.source_chain, a.nft_contract)
  let coll0 := (mapGet s1.collections collKey).getD freshCollection
  let isNew := ¬ coll0.is_initialized
  let coll1 :=
    if isNew then
      { source_chain := a.source_chain, nft_contract := a.nft_contract,
        name := a.collection_name,
        collection_asset_address := a.collection_asset,
        total_minted := 0, is_initialized := true }
    else coll0
  let reg1 :=
    if isNew then
      s1.registry.add_collection
        { source_chain := a.source_chain, nft_contract := a.nft_contract,
          collection_address := a.collection_asset, created_at := now }
    else s1.registry
  let coll2 := { coll1 with total_minted := satAdd64 coll1.total_minted }
  let prov : Provenance :=
    { source_chain := a.source_chain, nft_contract := a.nft_contract,
      token_id := a.token_id, token_uri := a.token_uri,
      dwallet_pubkey := cfg.minting_pubkey, signature := a.signature,
      receiver := a.receiver, sealed_at := now, is_initialized := true }
  { s1 with
    registry := reg1,
    collections := mapInsert s1.collections collKey coll2,
    provenance :=
      mapInsert s1.provenance (a.source_chain, a.nft_contract, a.token_id) prov }

/-- Mint a reborn NFT (`mint_reborn`): Anchor account resolution (replay
and double-mint `init` guards), input validation, receiver sanity check,
`sig_hash` binding, message reconstruction, Ed25519 envelope check, then
the state mutation. Every failure leaves the ledger unchanged. -/
def mint_reborn (cfg : MintConfig) (s : SolState) (a : MintArgs) (now : Int) :
    Except SolErr SolState :=
  if a.sig_hash ∈ s.used_sigs then .error .accountAlreadyInUse
  else if (mapGet s.provenance (a.source_chain, a.nft_contract, a.token_id)).isSome then
    .error .accountAlreadyInUse
  else if a.nft_contract.length > MAX_CONTRACT_LENGTH then .error .contractTooLong
  else if a.token_id.length > MAX_TOKEN_ID_LENGTH then .error .tokenIdTooLong
  else if a.token_uri.length > MAX_URI_LENGTH_SOL then .error .uriTooLong
  else if a.collection_name.length > MAX_NAME_LENGTH then .error .nameTooLong
  else if a.receiver = systemProgramId ∨ a.receiver = zeroPubkey then
    .error .invalidReceiver
  else if sha256 a.signature ≠ a.sig_hash then .error .invalidSigHash
  else
    let message_hash := sha256 (a.token_uri ++ a.token_id ++ a.receiver)
    match verify_ed25519_ix_data a.ed_ix_data cfg.minting_pubkey message_hash
            a.signature with
    | .error e => .error e
    | .ok _ => .ok (mint_apply cfg s a now)

/-- Run a sequence of `mint_reborn` calls; a failed transaction leaves the
ledger unchanged. -/
def runMints (cfg : MintConfig) (s : SolState) (calls : List (MintArgs × Int)) :
    SolState :=
  calls.foldl (fun st c =>
    match mint_reborn cfg st c.1 c.2 with
    | .ok s' => s'
    | .error _ => st) s

/-! ## Concrete fixtures used by witnesses -/

/-- Ed25519 precompile instruction data for one signature entry laid out
as header ‖ signature ‖ pubkey ‖ message (the layout the relayer builds):
signature at offset 16, pubkey at offset 80, 32-byte message at 112. -/
def mkEd25519IxData (pubkey message sig : List Nat) : List Nat :=
  [1, 0, 16, 0, 0, 0, 80, 0, 0, 0, 112, 0, 32, 0, 0, 0] ++
    sig ++ pubkey ++ message

/-- Demo trusted attestation pubkey. -/
def demoPubkey : List Nat := List.replicate 32 7

/-- Demo mint configuration. -/
def demoCfg : MintConfig := { minting_pubkey := demoPubkey, admin := [1] }

/-- Demo attestation signature (64 bytes). -/
def demoSig : List Nat := List.replicate 64 3

/-- Digest of the demo signature. -/
def demoSigHash : List Nat := sha256 demoSig

/-- Demo receiver pubkey (non-zero). -/
def demoReceiver : List Nat := List.replicate 32 9

/-- Demo token URI bytes ("ipfs"). -/
def demoUri : List Nat := [105, 112, 102, 115]

/-- Demo token id bytes ("1"). -/
def demoTokenId : List Nat := [49]

/-- Demo source contract id bytes ("col"). -/
def demoContract : List Nat := [99, 111, 108]

/-- Message hash the attester signs for the demo mint. -/
def demoMsgHash : List Nat := sha256 (demoUri ++ demoTokenId ++ demoReceiver)

/-- Demo `mint_reborn` arguments forming a fully valid first mint. -/
def demoArgs : MintArgs :=
  { signature := demoSig, sig_hash := demoSigHash, source_chain := 15,
    nft_contract := demoContract, token_id := demoTokenId,
    token_uri := demoUri, collection_name := [110],
    receiver := demoReceiver, collection_asset := List.replicate 32 5,
    ed_ix_data := mkEd25519IxData demoPubkey demoMsgHash demoSig }

/-- Concrete seal-initiator state with one pending uncompleted seal,
locked at time 0, used by the emergency-release witnesses. -/
def demoPendingSeal : PendingSeal :=
  { nft_contract := [110], token_id := [49],
    deposit_address := (List.replicate 32 [97, 97]).flatten,
    solana_receiver := List.replicate 32 0xBB, completed := false,
    wormhole_sequence := 0, created_at := 0 }

/-- Demo seal-initiator state holding `demoPendingSeal`. -/
def demoSealState : SealState :=
  { wormhole_account := [119], sequence := 1,
    sealed_nfts := [compute_seal_key [110] [49]],
    pending_seals := [(compute_seal_key [110] [49], demoPendingSeal)],
    seal_records := [], owner := [111], paused := false }

/-- One-record-per-key invariant on the seal initiator state. -/
def SealInv (s : SealState) : Prop :=
  ∀ k, keyCount k s.pending_seals ≤ 1 ∧ keyCount k s.seal_records ≤ 1

/-- Demo second attestation signature. -/
def demoSig2 : List Nat := List.replicate 64 4

/-- Digest of the second demo signature. -/
def demoSigHash2 : List Nat := sha256 demoSig2

/-- Demo second token id bytes ("2"). -/
def demoTokenId2 : List Nat := [50]

/-- Message hash for the second demo mint. -/
def demoMsgHash2 : List Nat := sha256 (demoUri ++ demoTokenId2 ++ demoReceiver)

/-- Second demo mint of the same source collection: different signature
and token id, different collection name (which must be ignored). -/
def demoArgs2 : MintArgs :=
  { demoArgs with
    signature := demoSig2, sig_hash := demoSigHash2,
    token_id := demoTokenId2, collection_name := [109],
    ed_ix_data := mkEd25519IxData demoPubkey demoMsgHash2 demoSig2 }

/-! ## Helper lemmas and sanity checks -/

/-- NIST FIPS 180-4 test vector: SHA-256 of the empty string. -/
theorem sha256_empty_vector : sha256 [] =
    [0xe3, 0xb0, 0xc4, 0x42, 0x98, 0xfc, 0x1c, 0x14, 0x9a, 0xfb, 0xf4, 0xc8,
     0x99, 0x6f, 0xb9, 0x24, 0x27, 0xae, 0x41, 0xe4, 0x64, 0x9b, 0x93, 0x4c,
     0xa4, 0x95, 0x99, 0x1b, 0x78, 0x52, 0xb8, 0x55] := by decide

/-- NIST FIPS 180-4 test vector: SHA-256 of "abc". -/
theorem sha256_abc_vector : sha256 [0x61, 0x62, 0x63] =
    [0xba, 0x78, 0x16, 0xbf, 0x8f, 0x01, 0xcf, 0xea, 0x41, 0x41, 0x40, 0xde,
     0x5d, 0xae, 0x22, 0x23, 0xb0, 0x03, 0x61, 0xa3, 0x96, 0x17, 0x7a, 0x9c,
     0xb4, 0x10, 0xff, 0x61, 0xf2, 0x00, 0x15, 0xad] := by decide

theorem mapGet_insert_self {κ α : Type} [DecidableEq κ]
    (m : List (κ × α)) (k : κ) (v : α) :
    mapGet (mapInsert m k v) k = some v := by
  induction m with
  | nil => simp [mapInsert, mapGet]
  | cons p rest ih =>
    obtain ⟨k', v'⟩ := p
    by_cases h : k' = k <;> simp [mapInsert, mapGet, h, ih]

theorem mapGet_insert_ne {κ α : Type} [DecidableEq κ]
    (m : List (κ × α)) (k k' : κ) (v : α) (h : k' ≠ k) :
    mapGet (mapInsert m k v) k' = mapGet m k' := by
  have hk : k ≠ k' := Ne.symm h
  induction m with
  | nil => simp [mapInsert, mapGet, hk]
  | cons p rest ih =>
    obtain ⟨k0, v0⟩ := p
    by_cases h0 : k0 = k
    · subst h0
      simp [mapInsert, mapGet, hk]
    · simp [mapInsert, mapGet, h0, ih]

theorem mapGet_remove_self {κ α : Type} [DecidableEq κ]
    (m : List (κ × α)) (k : κ) :
    mapGet (mapRemove m k) k = none := by
  induction m with
  | nil => simp [mapRemove, mapGet]
  | cons p rest ih =>
    obtain ⟨k', v'⟩ := p
    by_cases h : k' = k <;> simp [mapRemove, mapGet, h, ih]

theorem keyCount_cons {κ α : Type} [DecidableEq κ]
    (k a : κ) (b : α) (m : List (κ × α)) :
    keyCount k ((a, b) :: m) = (if a = k then 1 else 0) + keyCount k m := by
  by_cases h : a = k <;> simp [keyCount, List.filter_cons, h, Nat.add_comm]

theorem keyCount_insert_ne {κ α : Type} [DecidableEq κ]
    (m : List (κ × α)) (k k' : κ) (v : α) (h : k ≠ k') :
    keyCount k' (mapInsert m k v) = keyCount k' m := by
  induction m with
  | nil => simp [mapInsert, keyCount_cons, keyCount, h]
  | cons p rest ih =>
    obtain ⟨k0, v0⟩ := p
    by_cases h0 : k0 = k
    · subst h0
      simp only [mapInsert, eq_self_iff_true, if_true]
      rw [keyCount_cons, keyCount_cons]
    · simp only [mapInsert, if_neg h0]
      rw [keyCount_cons, keyCount_cons, ih]

theorem keyCount_insert_le {κ α : Type} [DecidableEq κ] (k k' : κ) (v : α) :
    ∀ m : List (κ × α), keyCount k' m ≤ 1 → keyCount k' (mapInsert m k v) ≤ 1
  | [] => by
      intro _
      by_cases hk : k = k' <;> simp [mapInsert, keyCount_cons, keyCount, hk]
  | (k0, v0) :: rest => by
      intro h
      rw [keyCount_cons] at h
      by_cases h0 : k0 = k
      · subst h0
        simp only [mapInsert, eq_self_iff_true, if_true]
        rw [keyCount_cons]
        exact h
      · simp only [mapInsert, if_neg h0]
        rw [keyCount_cons]
        by_cases hk : k0 = k'
        · rw [if_pos hk] at h ⊢
          rw [keyCount_insert_ne rest k k' v (fun e => h0 (hk.trans e.symm))]
          exact h
        · rw [if_neg hk] at h ⊢
          have := keyCount_insert_le k k' v rest (by omega)
          omega

theorem keyCount_remove_le {κ α : Type} [DecidableEq κ]
    (m : List (κ × α)) (k k' : κ) :
    keyCount k' (mapRemove m k) ≤ keyCount k' m := by
  induction m with
  | nil => simp [mapRemove]
  | cons p rest ih =>
    obtain ⟨k0, v0⟩ := p
    by_cases h0 : k0 = k
    · simp only [mapRemove, if_pos h0, keyCount_cons]
      omega
    · simp only [mapRemove, if_neg h0, keyCount_cons]
      omega

theorem sha256Rounds_length (l : List (Nat × Nat)) (s : List Nat)
    (h : s.length = 8) : (sha256Rounds l s).length = 8 := by
  induction l generalizing s with
  | nil => simpa [sha256Rounds] using h
  | cons p rest ih =>
    obtain ⟨k, w⟩ := p
    exact ih _ rfl

theorem sha256Block_length (hs b : List Nat) (h : hs.length = 8) :
    (sha256Block hs b).length = 8 := by
  have hr := sha256Rounds_length (sha256K.zip (extendW 48 (toWords32 b.length b))) hs h
  simp [sha256Block, List.length_zip, h, hr]

theorem sha256_foldl_length (blocks : List (List Nat)) (hs : List Nat)
    (h : hs.length = 8) :
    (blocks.foldl sha256Block hs).length = 8 := by
  induction blocks generalizing hs with
  | nil => simpa using h
  | cons b rest ih => exact ih _ (sha256Block_length hs b h)

theorem sha256_bytes_foldr_length (hs : List Nat) :
    (hs.foldr (fun w acc =>
      (w >>> 24) % 256 :: (w >>> 16) % 256 :: (w >>> 8) % 256 :: w % 256 :: acc)
      []).length = 4 * hs.length := by
  induction hs with
  | nil => simp
  | cons w rest ih => simp [ih]; omega

/-- SHA-256 always emits 32 bytes. -/
theorem sha256_length (msg : List Nat) : (sha256 msg).length = 32 := by
  have h8 : sha256H0.length = 8 := rfl
  have := sha256_foldl_length
    (chunks64 (sha256Pad msg).length (sha256Pad msg)) sha256H0 h8
  simp [sha256, sha256_bytes_foldr_length, this]

theorem hexDecode_length :
    ∀ (l b : List Nat), hexDecode l = some b → l.length = 2 * b.length
  | [], b => by
    intro h
    simp only [hexDecode, Option.some.injEq] at h
    subst h
    simp
  | [x], b => by
    intro h
    simp [hexDecode] at h
  | x :: y :: rest, b => by
    intro hb
    simp only [hexDecode] at hb
    cases hx : hexDigit? x <;> cases hy : hexDigit? y <;>
      cases hr : hexDecode rest <;> simp [hx, hy, hr] at hb
    have ih := hexDecode_length rest _ hr
    subst hb
    simp only [List.length_cons]
    omega

theorem drop_len_append {α : Type} (a b : List α) (n : Nat) (h : a.length = n) :
    (a ++ b).drop n = b := by
  subst h
  simp

theorem take_len_append {α : Type} (a b : List α) (n : Nat) (h : a.length = n) :
    (a ++ b).take n = a := by
  subst h
  simp

/-- A successful `decode_hex_32` yields exactly 32 bytes. -/
theorem decode_hex_32_length (s d : List Nat) (h : decode_hex_32 s = .ok d) :
    d.length = 32 := by
  simp only [decode_hex_32] at h
  split at h
  · rename_i hlen
    cases hd : hexDecode (dropHexMark s) <;> rw [hd] at h
    · exact absurd h (by simp)
    · simp only [Except.ok.injEq] at h
      have := hexDecode_length _ _ hd
      subst h
      omega
  · exact absurd h (by simp)

/-! ## Claim C3 — PayloadCodec wire layout -/

/-- C3: for every seal intent whose deposit reference decodes (to its raw
32 bytes `d`) and whose receiver is 32 bytes, `build_seal_payload`
produces exactly tag `0x01`, the chain id as a big-endian u16, SHA-256 of
the contract id, SHA-256 of the token id, the deposit reference verbatim
(not hashed), the raw receiver, and the raw unterminated URI, for a total
length of `131 + |asset_uri|`. Determinism ("identical inputs always
yield byte-identical output") is intrinsic: `build_seal_payload` is a
pure Lean function of its arguments. -/
theorem payload_codec_layout
    (nft_contract token_id deposit_address solana_receiver token_uri d : List Nat)
    (hd : decode_hex_32 deposit_address = .ok d)
    (hr : solana_receiver.length = 32) :
    build_seal_payload nft_contract token_id deposit_address solana_receiver
        token_uri =
      .ok ([PAYLOAD_TYPE_SEAL] ++ beBytes2 WORMHOLE_CHAIN_ID_NEAR ++
           sha256 nft_contract ++ sha256 token_id ++ d ++ solana_receiver ++
           token_uri) ∧
    ∀ payload,
      build_seal_payload nft_contract token_id deposit_address solana_receiver
          token_uri = .ok payload →
      payload.length = 131 + token_uri.length ∧
      payload.take 1 = [0x01] ∧
      (payload.drop 1).take 2 = beBytes2 WORMHOLE_CHAIN_ID_NEAR ∧
      (payload.drop 3).take 32 = sha256 nft_contract ∧
      (payload.drop 35).take 32 = sha256 token_id ∧
      (payload.drop 67).take 32 = d ∧
      (payload.drop 99).take 32 = solana_receiver ∧
      payload.drop 131 = token_uri := by
  have hdl : d.length = 32 := decode_hex_32_length _ _ hd
  have heq : build_seal_payload nft_contract token_id deposit_address
      solana_receiver token_uri =
      .ok ([PAYLOAD_TYPE_SEAL] ++ beBytes2 WORMHOLE_CHAIN_ID_NEAR ++
           sha256 nft_contract ++ sha256 token_id ++ d ++ solana_receiver ++
           token_uri) := by
    simp [build_seal_payload, hd, encode_near_account, encode_near_token_id]
  refine ⟨heq, fun payload hp => ?_⟩
  rw [heq] at hp
  injection hp with hp
  subst hp
  have h1 : ([PAYLOAD_TYPE_SEAL] : List Nat).length = 1 := rfl
  have h2 : (beBytes2 WORMHOLE_CHAIN_ID_NEAR).length = 2 := rfl
  have hc : (sha256 nft_contract).length = 32 := sha256_length _
  have ht : (sha256 token_id).length = 32 := sha256_length _
  refine ⟨?_, ?_, ?_, ?_, ?_, ?_, ?_, ?_⟩
  · simp only [List.length_append, h1, h2, hc, ht, hdl, hr]
  · rw [show ([PAYLOAD_TYPE_SEAL] ++ beBytes2 WORMHOLE_CHAIN_ID_NEAR ++
        sha256 nft_contract ++ sha256 token_id ++ d ++ solana_receiver ++
        token_uri : List Nat) =
      [PAYLOAD_TYPE_SEAL] ++ (beBytes2 WORMHOLE_CHAIN_ID_NEAR ++
        sha256 nft_contract ++ sha256 token_id ++ d ++ solana_receiver ++
        token_uri) by simp,
      take_len_append _ _ 1 h1]
    rfl
  · rw [show ([PAYLOAD_TYPE_SEAL] ++ beBytes2 WORMHOLE_CHAIN_ID_NEAR ++
        sha256 nft_contract ++ sha256 token_id ++ d ++ solana_receiver ++
        token_uri : List Nat) =
      [PAYLOAD_TYPE_SEAL] ++ (beBytes2 WORMHOLE_CHAIN_ID_NEAR ++
        (sha256 nft_contract ++ sha256 token_id ++ d ++ solana_receiver ++
         token_uri)) by simp,
      drop_len_append _ _ 1 h1,
      take_len_append _ _ 2 h2]
  · rw [show ([PAYLOAD_TYPE_SEAL] ++ beBytes2 WORMHOLE_CHAIN_ID_NEAR ++
        sha256 nft_contract ++ sha256 token_id ++ d ++ solana_receiver ++
        token_uri : List Nat) =
      ([PAYLOAD_TYPE_SEAL] ++ beBytes2 WORMHOLE_CHAIN_ID_NEAR) ++
        (sha256 nft_contract ++ (sha256 token_id ++ d ++ solana_receiver ++
         token_uri)) by simp,
      drop_len_append _ _ 3 (by simp [h1, h2]),
      take_len_append _ _ 32 hc]
  · rw [show ([PAYLOAD_TYPE_SEAL] ++ beBytes2 WORMHOLE_CHAIN_ID_NEAR ++
        sha256 nft_contract ++ sha256 token_id ++ d ++ solana_receiver ++
        token_uri : List Nat) =
      ([PAYLOAD_TYPE_SEAL] ++ beBytes2 WORMHOLE_CHAIN_ID_NEAR ++
        sha256 nft_contract) ++
        (sha256 token_id ++ (d ++ solana_receiver ++ token_uri)) by simp,
      drop_len_append _ _ 35 (by simp [h1, h2, hc]),
      take_len_append _ _ 32 ht]
  · rw [show ([PAYLOAD_TYPE_SEAL] ++ beBytes2 WORMHOLE_CHAIN_ID_NEAR ++
        sha256 nft_contract ++ sha256 token_id ++ d ++ solana_receiver ++
        token_uri : List Nat) =
      ([PAYLOAD_TYPE_SEAL] ++ beBytes2 WORMHOLE_CHAIN_ID_NEAR ++
        sha256 nft_contract ++ sha256 token_id) ++
        (d ++ (solana_receiver ++ token_uri)) by simp,
      drop_len_append _ _ 67 (by simp [h1, h2, hc, ht]),
      take_len_append _ _ 32 hdl]
  · rw [show ([PAYLOAD_TYPE_SEAL] ++ beBytes2 WORMHOLE_CHAIN_ID_NEAR ++
        sha256 nft_contract ++ sha256 token_id ++ d ++ solana_receiver ++
        token_uri : List Nat) =
      ([PAYLOAD_TYPE_SEAL] ++ beBytes2 WORMHOLE_CHAIN_ID_NEAR ++
        sha256 nft_contract ++ sha256 token_id ++ d) ++
        (solana_receiver ++ token_uri) by simp,
      drop_len_append _ _ 99 (by simp [h1, h2, hc, ht, hdl]),
      take_len_append _ _ 32 hr]
  · rw [show ([PAYLOAD_TYPE_SEAL] ++ beBytes2 WORMHOLE_CHAIN_ID_NEAR ++
        sha256 nft_contract ++ sha256 token_id ++ d ++ solana_receiver ++
        token_uri : List Nat) =
      ([PAYLOAD_TYPE_SEAL] ++ beBytes2 WORMHOLE_CHAIN_ID_NEAR ++
        sha256 nft_contract ++ sha256 token_id ++ d ++ solana_receiver) ++
        token_uri by simp,
      drop_len_append _ _ 131 (by simp [h1, h2, hc, ht, hdl, hr])]

/-- C3 witness: the layout theorem applied to a concrete intent. -/
theorem payload_codec_layout_witness :
    build_seal_payload [110] [49] (List.replicate 32 [97, 97]).flatten
        (List.replicate 32 0xBB) [105] =
      .ok ([PAYLOAD_TYPE_SEAL] ++ beBytes2 WORMHOLE_CHAIN_ID_NEAR ++
           sha256 [110] ++ sha256 [49] ++ List.replicate 32 0xAA ++
           List.replicate 32 0xBB ++ [105]) :=
  (payload_codec_layout [110] [49] (List.replicate 32 [97, 97]).flatten
    (List.replicate 32 0xBB) [105] (List.replicate 32 0xAA)
    (by decide) (by decide)).1

/-! ## Claim C6 — encode failure modes (corrected) -/

/-- C6 counterexample: the claim says encoding fails with `UriTooLong`
exactly when the URI exceeds 512 bytes and with `IdentifierTooLong` when
an identifier exceeds 64 bytes. On the NEAR encoder the URI bound is
2048 (`MAX_URI_LENGTH`), so a 513-byte URI encodes fine, and identifiers
are hashed, so a 65-byte contract id also encodes fine. -/
theorem encode_limits_counterexample :
    (List.replicate 513 97).length > 512 ∧
    (encode_seal [110] [49] (List.replicate 32 [97, 97]).flatten
        (List.replicate 32 0xBB) (List.replicate 513 97)).isOk = true ∧
    (List.replicate 65 97).length > 64 ∧
    (encode_seal (List.replicate 65 97) [49] (List.replicate 32 [97, 97]).flatten
        (List.replicate 32 0xBB) [105]).isOk = true := by
  refine ⟨by decide, ?_, by decide, ?_⟩ <;> decide

/-- C6 amended: encoding a seal intent fails with "URI too long" exactly
when the URI exceeds 2048 bytes; there is no identifier-length failure
(identifiers of any length are hashed to 32 bytes); the only other
failure mode is a deposit reference that is not a valid 64-character hex
string, so below the URI bound, encoding succeeds exactly when the
deposit reference decodes. -/
theorem encode_limits_amended
    (nft_contract token_id deposit_address solana_receiver token_uri : List Nat) :
    (encode_seal nft_contract token_id deposit_address solana_receiver
        token_uri = .error "URI too long" ↔
      token_uri.length > MAX_URI_LENGTH) ∧
    (token_uri.length ≤ MAX_URI_LENGTH →
      (encode_seal nft_contract token_id deposit_address solana_receiver
          token_uri).isOk = (decode_hex_32 deposit_address).isOk) := by
  constructor
  · constructor
    · intro h
      by_cases hu : token_uri.length > MAX_URI_LENGTH
      · exact hu
      · exfalso
        simp only [encode_seal, if_neg hu, build_seal_payload] at h
        cases hdep : decode_hex_32 deposit_address with
        | error e =>
          rw [hdep] at h
          injection h with h
          subst h
          simp only [decode_hex_32] at hdep
          split at hdep
          · cases hx : hexDecode (dropHexMark deposit_address) <;>
              rw [hx] at hdep <;> simp_all
          · simp_all
        | ok dep =>
          rw [hdep] at h
          exact absurd h (by simp)
    · intro hu
      simp [encode_seal, hu]
  · intro hu
    simp only [encode_seal, if_neg (by omega : ¬ token_uri.length > MAX_URI_LENGTH),
      build_seal_payload]
    cases hdep : decode_hex_32 deposit_address <;> rfl

/-- C6 witness: the amended theorem applied to a concrete in-bounds
intent, whose encoding succeeds. -/
theorem encode_limits_amended_witness :
    (encode_seal [110] [49] (List.replicate 32 [97, 97]).flatten
        (List.replicate 32 0xBB) [105]).isOk =
      (decode_hex_32 (List.replicate 32 [97, 97]).flatten).isOk :=
  (encode_limits_amended [110] [49] (List.replicate 32 [97, 97]).flatten
    (List.replicate 32 0xBB) [105]).2 (by decide)

/-! ## Claims C5 and C9 — emergency release -/

theorem setRemove_not_mem {κ : Type} [DecidableEq κ] (s : List κ) (k : κ) :
    k ∉ setRemove s k := by
  simp [setRemove, List.mem_filter]

/-- C5: for an existing pending seal with `completed = false`, the
administrator's `emergency_unlock` (with the contract not paused) fails
whenever the elapsed time is below the delay — in particular at exactly
one time unit short — and succeeds at exactly the delay, removing the key
from the sealed set and deleting the pending seal; once
`completed = true` it fails unconditionally. -/
theorem emergency_release_boundary
    (s : SealState) (caller nft_contract token_id : List Nat) (p : PendingSeal)
    (hown : caller = s.owner) (hpause : s.paused = false)
    (hp : mapGet s.pending_seals (compute_seal_key nft_contract token_id) =
      some p) :
    (p.completed = false → ∀ now, now - p.created_at < EMERGENCY_UNLOCK_DELAY_NS →
        emergency_unlock s caller nft_contract token_id now =
          .error "Emergency unlock not yet available (24h delay)") ∧
    (p.completed = false →
        emergency_unlock s caller nft_contract token_id
            (p.created_at + (EMERGENCY_UNLOCK_DELAY_NS - 1)) =
          .error "Emergency unlock not yet available (24h delay)") ∧
    (p.completed = false → ∀ now, now - p.created_at = EMERGENCY_UNLOCK_DELAY_NS →
        emergency_unlock s caller nft_contract token_id now =
          .ok { s with
                sealed_nfts :=
                  setRemove s.sealed_nfts (compute_seal_key nft_contract token_id),
                pending_seals :=
                  mapRemove s.pending_seals (compute_seal_key nft_contract token_id) } ∧
        mapGet (mapRemove s.pending_seals (compute_seal_key nft_contract token_id))
            (compute_seal_key nft_contract token_id) = none ∧
        compute_seal_key nft_contract token_id ∉
          setRemove s.sealed_nfts (compute_seal_key nft_contract token_id)) ∧
    (p.completed = true → ∀ now,
        emergency_unlock s caller nft_contract token_id now =
          .error "Seal already completed, cannot unlock") := by
  have hno : ¬ caller ≠ s.owner := by simp [hown]
  refine ⟨?_, ?_, ?_, ?_⟩
  · intro hc now hlt
    simp [emergency_unlock, hno, hpause, hp, hc, hlt]
  · intro hc
    have hlt : p.created_at + (EMERGENCY_UNLOCK_DELAY_NS - 1) - p.created_at <
        EMERGENCY_UNLOCK_DELAY_NS := by
      have : (0 : Nat) < EMERGENCY_UNLOCK_DELAY_NS := by decide
      omega
    simp only [emergency_unlock, hno, hpause, hp, hc, hlt]
    simp [hlt]
  · intro hc now heq
    have hge : ¬ now - p.created_at < EMERGENCY_UNLOCK_DELAY_NS := by omega
    refine ⟨?_, mapGet_remove_self _ _, setRemove_not_mem _ _⟩
    simp [emergency_unlock, hno, hpause, hp, hc, hge]
  · intro hc now
    simp [emergency_unlock, hno, hpause, hp, hc]

/-- C5 witness: at exactly the 24-hour delay the unlock succeeds on the
demo state. -/
theorem emergency_release_boundary_witness :
    emergency_unlock demoSealState [111] [110] [49] EMERGENCY_UNLOCK_DELAY_NS =
      .ok { demoSealState with
            sealed_nfts :=
              setRemove demoSealState.sealed_nfts (compute_seal_key [110] [49]),
            pending_seals :=
              mapRemove demoSealState.pending_seals (compute_seal_key [110] [49]) } :=
  ((emergency_release_boundary demoSealState [111] [110] [49] demoPendingSeal
      rfl rfl (by simp [demoSealState, mapGet])).2.2.1 rfl
    EMERGENCY_UNLOCK_DELAY_NS (by simp [demoPendingSeal])).1

/-- C9: pausing the contract blocks `emergency_unlock` even for the
administrator acting on a pending uncompleted seal whose delay has fully
elapsed. -/
theorem emergency_release_blocked_by_pause
    (s : SealState) (caller nft_contract token_id : List Nat) (p : PendingSeal)
    (now : Nat)
    (hpaused : s.paused = true) (hown : caller = s.owner)
    (_hp : mapGet s.pending_seals (compute_seal_key nft_contract token_id) =
      some p)
    (_hc : p.completed = false)
    (_hd : p.created_at + EMERGENCY_UNLOCK_DELAY_NS ≤ now) :
    emergency_unlock s caller nft_contract token_id now =
      .error "Contract is paused" := by
  have hno : ¬ caller ≠ s.owner := by simp [hown]
  simp [emergency_unlock, hno, hpaused]

/-- C9 witness: the paused demo state rejects an otherwise fully eligible
emergency unlock. -/
theorem emergency_release_blocked_by_pause_witness :
    emergency_unlock { demoSealState with paused := true } [111] [110] [49]
        EMERGENCY_UNLOCK_DELAY_NS = .error "Contract is paused" :=
  emergency_release_blocked_by_pause _ [111] [110] [49] demoPendingSeal
    EMERGENCY_UNLOCK_DELAY_NS rfl rfl (by simp [demoSealState, mapGet]) rfl
    (by simp [demoPendingSeal])

/-! ## Claim C7 — lock rejection cases (corrected) -/

/-- Shared helper: `nft_on_transfer` answers "refund, state unchanged"
whenever the parsed msg is missing, the receiver hex is malformed, or the
key is already sealed. -/
theorem nft_on_transfer_rejects
    (s : SealState) (nft_contract sender_id token_id : List Nat)
    (msg : Option SealMsg) (now : Nat)
    (h : msg = none ∨
         (∃ m, msg = some m ∧
            ((dropHexMark m.solana_receiver).length ≠ 64 ∨
             hexDecode (dropHexMark m.solana_receiver) = none)) ∨
         compute_seal_key nft_contract token_id ∈ s.sealed_nfts) :
    nft_on_transfer s nft_contract sender_id token_id msg now = (true, s) := by
  by_cases hpause : s.paused
  · simp [nft_on_transfer, hpause]
  · rcases h with hnone | ⟨m, hm, hbad⟩ | hsealed
    · simp [nft_on_transfer, hpause, hnone]
    · subst hm
      rcases hbad with hlen | hhex
      · simp [nft_on_transfer, hpause, hlen]
      · by_cases hlen : (dropHexMark m.solana_receiver).length = 64
        · simp [nft_on_transfer, hpause, hlen, hhex]
        · simp [nft_on_transfer, hpause, hlen]
    · cases msg with
      | none => simp [nft_on_transfer, hpause]
      | some m =>
        by_cases hlen : (dropHexMark m.solana_receiver).length = 64
        · cases hhex : hexDecode (dropHexMark m.solana_receiver) with
          | none => simp [nft_on_transfer, hpause, hlen, hhex]
          | some rec =>
            by_cases h32 : rec.length = 32 <;>
              simp [nft_on_transfer, hpause, hlen, hhex, h32, hsealed]
        · simp [nft_on_transfer, hpause, hlen]

/-- C7 counterexample: the claim requires `lock` to reject whenever the
deposit/collateral reference in the msg is not exactly 32 bytes. The code
never validates the deposit reference at lock time: a 1-byte
`deposit_address` is accepted (refund flag `false`), a pending seal is
created, and the bogus reference is stored in it. -/
theorem lock_validation_counterexample :
    ([97] : List Nat).length ≠ 32 ∧
    (nft_on_transfer (SealState.new [119] [111]) [110] [115] [49]
        (some { deposit_address := [97],
                solana_receiver := (List.replicate 32 [97, 97]).flatten }) 0).1 =
      false ∧
    (mapGet (nft_on_transfer (SealState.new [119] [111]) [110] [115] [49]
        (some { deposit_address := [97],
                solana_receiver := (List.replicate 32 [97, 97]).flatten }) 0).2.pending_seals
      (compute_seal_key [110] [49])).map PendingSeal.deposit_address =
      some [97] := by
  refine ⟨by decide, by decide, by decide⟩

/-- C7 amended: `lock` rejects — returning the asset (refund flag `true`)
with no seal state created — when the msg payload is malformed, when the
destination receiver supplied in the msg is not exactly 32 bytes (64 hex
characters), or when the key is already sealed; the deposit/collateral
reference is not validated at lock time. -/
theorem lock_reject_cases
    (s : SealState) (nft_contract sender_id token_id : List Nat)
    (msg : Option SealMsg) (now : Nat) :
    (msg = none →
      nft_on_transfer s nft_contract sender_id token_id msg now = (true, s)) ∧
    (∀ m, msg = some m →
      ((dropHexMark m.solana_receiver).length ≠ 64 ∨
       hexDecode (dropHexMark m.solana_receiver) = none) →
      nft_on_transfer s nft_contract sender_id token_id msg now = (true, s)) ∧
    (compute_seal_key nft_contract token_id ∈ s.sealed_nfts →
      nft_on_transfer s nft_contract sender_id token_id msg now = (true, s)) :=
  ⟨fun hnone => nft_on_transfer_rejects s _ _ _ msg now (Or.inl hnone),
   fun m hm hbad =>
     nft_on_transfer_rejects s _ _ _ msg now (Or.inr (Or.inl ⟨m, hm, hbad⟩)),
   fun hsealed =>
     nft_on_transfer_rejects s _ _ _ msg now (Or.inr (Or.inr hsealed))⟩

/-- C7 witness: a malformed msg (failed JSON parse) on the fresh state is
refunded with the state unchanged. -/
theorem lock_reject_cases_witness :
    nft_on_transfer (SealState.new [119] [111]) [110] [115] [49] none 0 =
      (true, SealState.new [119] [111]) :=
  (lock_reject_cases (SealState.new [119] [111]) [110] [115] [49] none 0).1 rfl

/-! ## Claim C4 — at-most-once sealing -/

theorem sealInv_new (w o : List Nat) : SealInv (SealState.new w o) := by
  intro k
  constructor <;> simp [SealState.new, keyCount]

theorem sealInv_lock (s : SealState) (c snd t : List Nat)
    (msg : Option SealMsg) (now : Nat) (h : SealInv s) :
    SealInv (nft_on_transfer s c snd t msg now).2 := by
  by_cases hpause : s.paused
  · simpa [nft_on_transfer, hpause] using h
  · cases msg with
    | none => simpa [nft_on_transfer, hpause] using h
    | some m =>
      by_cases hlen : (dropHexMark m.solana_receiver).length = 64
      · cases hhex : hexDecode (dropHexMark m.solana_receiver) with
        | none => simpa [nft_on_transfer, hpause, hlen, hhex] using h
        | some rec =>
          by_cases h32 : rec.length = 32
          · by_cases hsealed : compute_seal_key c t ∈ s.sealed_nfts
            · simpa [nft_on_transfer, hpause, hlen, hhex, h32, hsealed] using h
            · intro k
              refine ⟨?_, ?_⟩
              · have := keyCount_insert_le (compute_seal_key c t) k
                  { nft_contract := c, token_id := t,
                    deposit_address := m.deposit_address,
                    solana_receiver := rec, completed := false,
                    wormhole_sequence := 0, created_at := now }
                  s.pending_seals ((h k).1)
                simpa [nft_on_transfer, hpause, hlen, hhex, h32, hsealed]
                  using this
              · simpa [nft_on_transfer, hpause, hlen, hhex, h32, hsealed]
                  using (h k).2
          · simpa [nft_on_transfer, hpause, hlen, hhex, h32] using h
      · simpa [nft_on_transfer, hpause, hlen] using h

theorem sealInv_complete (s s' : SealState) (c t uri : List Nat)
    (seq now : Nat) (h : SealInv s)
    (hok : complete_seal s c t uri seq now = .ok s') : SealInv s' := by
  by_cases hpause : s.paused
  · simp [complete_seal, hpause] at hok
  · cases hp : mapGet s.pending_seals (compute_seal_key c t) with
    | none => simp [complete_seal, hpause, hp] at hok
    | some pending =>
      by_cases hc : pending.completed
      · simp [complete_seal, hpause, hp, hc] at hok
      · by_cases hu : uri.length > MAX_URI_LENGTH
        · simp [complete_seal, hpause, hp, hc, hu] at hok
        · cases hb : build_seal_payload c t pending.deposit_address
              pending.solana_receiver uri with
          | error e => simp [complete_seal, hpause, hp, hc, hu, hb] at hok
          | ok payload =>
            simp only [complete_seal, hpause, hp, hc, hu, hb, if_neg,
              ite_false, Bool.false_eq_true, not_false_eq_true,
              if_false] at hok
            injection hok with hok
            subst hok
            intro k
            refine ⟨?_, ?_⟩
            · exact keyCount_insert_le _ _ _ _ ((h k).1)
            · exact keyCount_insert_le _ _ _ _ ((h k).2)

theorem sealInv_release (s s' : SealState) (caller c t : List Nat)
    (now : Nat) (h : SealInv s)
    (hok : emergency_unlock s caller c t now = .ok s') : SealInv s' := by
  by_cases hown : caller ≠ s.owner
  · simp [emergency_unlock, hown] at hok
  · by_cases hpause : s.paused
    · simp [emergency_unlock, hown, hpause] at hok
    · cases hp : mapGet s.pending_seals (compute_seal_key c t) with
      | none => simp [emergency_unlock, hown, hpause, hp] at hok
      | some pending =>
        by_cases hc : pending.completed
        · simp [emergency_unlock, hown, hpause, hp, hc] at hok
        · by_cases hd : now - pending.created_at < EMERGENCY_UNLOCK_DELAY_NS
          · simp [emergency_unlock, hown, hpause, hp, hc, hd] at hok
          · simp only [emergency_unlock, hown, hpause, hp, hc, hd,
              ite_false, Bool.false_eq_true, not_false_eq_true,
              if_false] at hok
            injection hok with hok
            subst hok
            intro k
            refine ⟨Nat.le_trans (keyCount_remove_le _ _ _) ((h k).1), (h k).2⟩

theorem sealInv_step (s : SealState) (op : SealOp) (h : SealInv s) :
    SealInv (sealStep s op) := by
  cases op with
  | lock c snd t msg now => exact sealInv_lock s c snd t msg now h
  | complete c t uri seq now =>
    simp only [sealStep]
    cases hok : complete_seal s c t uri seq now with
    | ok s' => exact sealInv_complete s s' c t uri seq now h hok
    | error e => exact h
  | release caller c t now =>
    simp only [sealStep]
    cases hok : emergency_unlock s caller c t now with
    | ok s' => exact sealInv_release s s' caller c t now h hok
    | error e => exact h
  | pause caller p =>
    simp only [sealStep]
    cases hok : set_paused s caller p with
    | ok s' =>
      simp only [set_paused] at hok
      split at hok
      · exact absurd hok (by simp)
      · injection hok with hok
        subst hok
        intro k
        exact h k
    | error e => exact h

theorem sealInv_run (s : SealState) (ops : List SealOp) (h : SealInv s) :
    SealInv (sealRun s ops) := by
  induction ops generalizing s with
  | nil => exact h
  | cons op rest ih => exact ih _ (sealInv_step s op h)

/-- C4: after any sequence of lock/complete/release/pause operations from
a fresh deployment, every key has at most one pending seal and at most
one completed seal record, and a lock attempt on a key already in the
sealed set always answers "refund" without creating or modifying any
state. -/
theorem at_most_once_sealing :
    (∀ (w o : List Nat) (ops : List SealOp) (k : List Nat),
        keyCount k (sealRun (SealState.new w o) ops).pending_seals ≤ 1 ∧
        keyCount k (sealRun (SealState.new w o) ops).seal_records ≤ 1) ∧
    (∀ (s : SealState) (c snd t : List Nat) (msg : Option SealMsg) (now : Nat),
        compute_seal_key c t ∈ s.sealed_nfts →
        nft_on_transfer s c snd t msg now = (true, s)) :=
  ⟨fun w o ops k => sealInv_run (SealState.new w o) ops (sealInv_new w o) k,
   fun s c snd t msg now hsealed =>
     nft_on_transfer_rejects s c snd t msg now (Or.inr (Or.inr hsealed))⟩

/-- C4 witness: on the demo state whose key is sealed, a second lock for
the same key is refunded unchanged; and a two-operation run keeps a
single pending seal for the key. -/
theorem at_most_once_sealing_witness :
    nft_on_transfer demoSealState [110] [115] [49]
        (some { deposit_address := (List.replicate 32 [97, 97]).flatten,
                solana_receiver := (List.replicate 32 [97, 97]).flatten }) 7 =
      (true, demoSealState) ∧
    keyCount (compute_seal_key [110] [49])
        (sealRun (SealState.new [119] [111])
          [.lock [110] [115] [49]
            (some { deposit_address := (List.replicate 32 [97, 97]).flatten,
                    solana_receiver := (List.replicate 32 [97, 97]).flatten }) 0,
           .lock [110] [115] [49]
            (some { deposit_address := (List.replicate 32 [97, 97]).flatten,
                    solana_receiver := (List.replicate 32 [97, 97]).flatten }) 1]).pending_seals ≤ 1 :=
  ⟨at_most_once_sealing.2 demoSealState [110] [115] [49] _ 7
      (by simp [demoSealState]),
   (at_most_once_sealing.1 [119] [111] _ (compute_seal_key [110] [49])).1⟩

/-! ## Solana helper lemmas -/

theorem verify_ok_iff (data pk msg sig : List Nat) :
    verify_ed25519_ix_data data pk msg sig = .ok () ↔
      (16 ≤ data.length ∧ 1 ≤ data.getD 0 0 ∧
       sliceOpt data (readLE16 data 2) 64 = some sig ∧
       sliceOpt data (readLE16 data 6) 32 = some pk ∧
       readLE16 data 12 = 32 ∧
       sliceOpt data (readLE16 data 10) 32 = some msg) := by
  unfold verify_ed25519_ix_data
  by_cases h1 : data.length < 16
  · rw [if_pos h1]
    constructor
    · intro hc
      simp at hc
    · rintro ⟨hlen, -⟩
      exact absurd h1 (by omega)
  · rw [if_neg h1]
    by_cases h2 : data.getD 0 0 < 1
    · rw [if_pos h2]
      constructor
      · intro hc
        simp at hc
      · rintro ⟨-, hged, -⟩
        exact absurd h2 (by omega)
    · rw [if_neg h2]
      cases hs : sliceOpt data (readLE16 data 2) 64 with
      | none => simp [hs]
      | some sig_data =>
        by_cases hsig : sig_data = sig
        · subst hsig
          simp only [hs]
          rw [if_neg (by simp : ¬ sig_data ≠ sig_data)]
          cases hpk : sliceOpt data (readLE16 data 6) 32 with
          | none => simp [hpk]
          | some pk_data =>
            dsimp only
            by_cases hp : pk_data = pk
            · subst hp
              rw [if_neg (by simp : ¬ pk_data ≠ pk_data)]
              by_cases hm : readLE16 data 12 = 32
              · rw [hm]
                rw [if_neg (by simp : ¬ (32 : Nat) ≠ 32)]
                cases hmsg : sliceOpt data (readLE16 data 10) 32 with
                | none => simp [hmsg, hm]
                | some msg_data =>
                  dsimp only
                  by_cases hmd : msg_data = msg
                  · subst hmd
                    rw [if_neg (by simp : ¬ msg_data ≠ msg_data)]
                    simp [hs, hpk, hmsg, hm, Nat.not_lt.mp h1]
                    simpa [List.getD] using Nat.not_lt.mp h2
                  · rw [if_pos hmd]
                    simp [hmsg, hmd, Ne.symm hmd]
              · rw [if_pos hm]
                simp [hm]
            · rw [if_pos hp]
              simp [hpk, hp, Ne.symm hp]
        · simp only [hs]
          rw [if_pos hsig]
          simp [hsig, Ne.symm hsig]

theorem mint_reborn_ok_iff (cfg : MintConfig) (s : SolState) (a : MintArgs)
    (now : Int) (s1 : SolState) :
    mint_reborn cfg s a now = .ok s1 ↔
      (a.sig_hash ∉ s.used_sigs ∧
       mapGet s.provenance (a.source_chain, a.nft_contract, a.token_id) = none ∧
       a.nft_contract.length ≤ MAX_CONTRACT_LENGTH ∧
       a.token_id.length ≤ MAX_TOKEN_ID_LENGTH ∧
       a.token_uri.length ≤ MAX_URI_LENGTH_SOL ∧
       a.collection_name.length ≤ MAX_NAME_LENGTH ∧
       ¬(a.receiver = systemProgramId ∨ a.receiver = zeroPubkey) ∧
       sha256 a.signature = a.sig_hash ∧
       verify_ed25519_ix_data a.ed_ix_data cfg.minting_pubkey
         (sha256 (a.token_uri ++ a.token_id ++ a.receiver)) a.signature =
           .ok () ∧
       s1 = mint_apply cfg s a now) := by
  unfold mint_reborn
  by_cases h1 : a.sig_hash ∈ s.used_sigs
  · simp [h1]
  · simp only [if_neg h1]
    cases h2 : mapGet s.provenance (a.source_chain, a.nft_contract, a.token_id) with
    | some p => simp [h2]
    | none =>
      simp only [h2, Option.isSome_none, Bool.false_eq_true, not_false_eq_true,
        if_false, if_neg]
      by_cases h3 : a.nft_contract.length > MAX_CONTRACT_LENGTH
      · simp [h3]
      · simp only [if_neg h3]
        by_cases h4 : a.token_id.length > MAX_TOKEN_ID_LENGTH
        · simp [h4]
        · simp only [if_neg h4]
          by_cases h5 : a.token_uri.length > MAX_URI_LENGTH_SOL
          · simp [h5]
          · simp only [if_neg h5]
            by_cases h6 : a.collection_name.length > MAX_NAME_LENGTH
            · simp [h6]
            · simp only [if_neg h6]
              by_cases h7 : a.receiver = systemProgramId ∨ a.receiver = zeroPubkey
              · simp [h7]
              · simp only [if_neg h7]
                by_cases h8 : sha256 a.signature = a.sig_hash
                · rw [if_neg (by simp [h8] : ¬ sha256 a.signature ≠ a.sig_hash)]
                  cases h9 : verify_ed25519_ix_data a.ed_ix_data cfg.minting_pubkey
                      (sha256 (a.token_uri ++ a.token_id ++ a.receiver)) a.signature with
                  | error e => simp [h9]
                  | ok u =>
                    cases u
                    dsimp only
                    constructor
                    · intro hok
                      injection hok with hok
                      exact ⟨h1, trivial, by omega, by omega, by omega, by omega,
                             h7, h8, rfl, hok.symm⟩
                    · rintro ⟨-, -, -, -, -, -, -, -, -, rfl⟩
                      rfl
                · rw [if_pos h8]
                  simp [h8]

/-- Errors out of `verify_ed25519_ix_data` are envelope errors only. -/
theorem verify_err_cases (data pk msg sig : List Nat) (e : SolErr)
    (h : verify_ed25519_ix_data data pk msg sig = .error e) :
    e = .invalidInstructionData ∨ e = .signatureVerificationFailed := by
  unfold verify_ed25519_ix_data at h
  by_cases h1 : data.length < 16
  · simp only [if_pos h1] at h
    injection h with h
    exact Or.inl h.symm
  · simp only [if_neg h1] at h
    by_cases h2 : data.getD 0 0 < 1
    · simp only [if_pos h2] at h
      injection h with h
      exact Or.inl h.symm
    · simp only [if_neg h2] at h
      cases hs : sliceOpt data (readLE16 data 2) 64 with
      | none =>
        simp only [hs] at h
        injection h with h
        exact Or.inl h.symm
      | some sig_data =>
        simp only [hs] at h
        by_cases hsig : sig_data ≠ sig
        · simp only [if_pos hsig] at h
          injection h with h
          exact Or.inr h.symm
        · simp only [if_neg hsig] at h
          cases hpk : sliceOpt data (readLE16 data 6) 32 with
          | none =>
            simp only [hpk] at h
            injection h with h
            exact Or.inl h.symm
          | some pk_data =>
            simp only [hpk] at h
            by_cases hp : pk_data ≠ pk
            · simp only [if_pos hp] at h
              injection h with h
              exact Or.inr h.symm
            · simp only [if_neg hp] at h
              by_cases hm : readLE16 data 12 ≠ 32
              · simp only [if_pos hm] at h
                injection h with h
                exact Or.inr h.symm
              · simp only [if_neg hm] at h
                cases hmsg : sliceOpt data (readLE16 data 10) (readLE16 data 12) with
                | none =>
                  simp only [hmsg] at h
                  injection h with h
                  exact Or.inl h.symm
                | some msg_data =>
                  simp only [hmsg] at h
                  by_cases hmd : msg_data ≠ msg
                  · simp only [if_pos hmd] at h
                    injection h with h
                    exact Or.inr h.symm
                  · simp only [if_neg hmd] at h
                    exact absurd h (by simp)

/-- Successful minting conses the digest onto the used-signature set. -/
theorem mint_apply_used (cfg : MintConfig) (s : SolState) (a : MintArgs)
    (now : Int) :
    (mint_apply cfg s a now).used_sigs = a.sig_hash :: s.used_sigs := rfl

/-! ## Claim C1 — replay guard: at-most-once consumption per digest -/

theorem runMints_cons (cfg : MintConfig) (s : SolState) (c : MintArgs × Int)
    (calls : List (MintArgs × Int)) :
    runMints cfg s (c :: calls) =
      runMints cfg
        (match mint_reborn cfg s c.1 c.2 with
         | .ok s' => s'
         | .error _ => s) calls := rfl

theorem runMints_used_mono (cfg : MintConfig) (d : List Nat) :
    ∀ (calls : List (MintArgs × Int)) (s : SolState),
      d ∈ s.used_sigs → d ∈ (runMints cfg s calls).used_sigs
  | [], _, h => h
  | c :: calls, s, h => by
      rw [runMints_cons]
      cases hm : mint_reborn cfg s c.1 c.2 with
      | ok s' =>
        rcases (mint_reborn_ok_iff cfg s c.1 c.2 s').1 hm with
          ⟨-, -, -, -, -, -, -, -, -, rfl⟩
        exact runMints_used_mono cfg d calls _
          (by rw [mint_apply_used]; exact List.mem_cons_of_mem _ h)
      | error e =>
        exact runMints_used_mono cfg d calls s h

/-- C1: a successful `mint_reborn` requires its `sig_hash` to be unused
and records it as used; once a digest is recorded, any call supplying it
fails (the `sig_record` PDA `init` fails before minting), and it stays
recorded across any further sequence of calls, so every later attempt for
the same digest fails — consumption is at most once. A failed call
carries no new state in this model, matching the all-or-nothing
transaction semantics. -/
theorem replay_guard_at_most_once (cfg : MintConfig) (s : SolState)
    (a : MintArgs) (now : Int) :
    (∀ s1, mint_reborn cfg s a now = .ok s1 →
        a.sig_hash ∉ s.used_sigs ∧ a.sig_hash ∈ s1.used_sigs) ∧
    (a.sig_hash ∈ s.used_sigs →
        mint_reborn cfg s a now = .error .accountAlreadyInUse) ∧
    (∀ calls, a.sig_hash ∈ s.used_sigs →
        mint_reborn cfg (runMints cfg s calls) a now =
          .error .accountAlreadyInUse) := by
  refine ⟨?_, ?_, ?_⟩
  · intro s1 hok
    rcases (mint_reborn_ok_iff cfg s a now s1).1 hok with
      ⟨hnot, -, -, -, -, -, -, -, -, rfl⟩
    refine ⟨hnot, ?_⟩
    rw [mint_apply_used]
    exact List.mem_cons_self _ _
  · intro h
    unfold mint_reborn
    rw [if_pos h]
  · intro calls h
    unfold mint_reborn
    rw [if_pos (runMints_used_mono cfg a.sig_hash calls s h)]

/-- C1 witness: after the demo mint consumes the demo digest, replaying
the very same call fails with the account-in-use error. -/
theorem replay_guard_witness :
    mint_reborn demoCfg (mint_apply demoCfg SolState.init demoArgs 0)
        demoArgs 0 = .error .accountAlreadyInUse :=
  (replay_guard_at_most_once demoCfg
      (mint_apply demoCfg SolState.init demoArgs 0) demoArgs 0).2.1
    (by rw [mint_apply_used]; exact List.mem_cons_self _ _)

/-! ## Claim C2 — verification acceptance conditions -/

/-- C2: `mint_reborn` succeeds only when the supplied `sig_hash` equals
SHA-256 of the signature and the Ed25519 envelope check passes against
the message recomputed as SHA-256(uri ‖ token id ‖ receiver); the
envelope check passes exactly when the signature bytes, public key, and
32-byte message extracted from the precompile instruction data equal,
bit for bit, the supplied signature, the trusted configured key, and the
recomputed hash; in particular an envelope carrying any other message —
for instance one whose signature bytes are valid for a different message
under the same trusted key — is rejected. Failures carry no state in
this model (all-or-nothing transactions). -/
theorem verification_characterization :
    (∀ data pk msg sig : List Nat,
        verify_ed25519_ix_data data pk msg sig = .ok () ↔
          (16 ≤ data.length ∧ 1 ≤ data.getD 0 0 ∧
           sliceOpt data (readLE16 data 2) 64 = some sig ∧
           sliceOpt data (readLE16 data 6) 32 = some pk ∧
           readLE16 data 12 = 32 ∧
           sliceOpt data (readLE16 data 10) 32 = some msg)) ∧
    (∀ (cfg : MintConfig) (s : SolState) (a : MintArgs) (now : Int)
        (s1 : SolState), mint_reborn cfg s a now = .ok s1 →
        sha256 a.signature = a.sig_hash ∧
        verify_ed25519_ix_data a.ed_ix_data cfg.minting_pubkey
          (sha256 (a.token_uri ++ a.token_id ++ a.receiver)) a.signature =
            .ok ()) ∧
    (∀ (data pk msg sig m2 : List Nat),
        sliceOpt data (readLE16 data 10) 32 = some m2 → m2 ≠ msg →
        verify_ed25519_ix_data data pk msg sig ≠ .ok ()) := by
  refine ⟨verify_ok_iff, ?_, ?_⟩
  · intro cfg s a now s1 hok
    rcases (mint_reborn_ok_iff cfg s a now s1).1 hok with
      ⟨-, -, -, -, -, -, -, h8, h9, -⟩
    exact ⟨h8, h9⟩
  · intro data pk msg sig m2 hm2 hne hok
    rcases (verify_ok_iff data pk msg sig).1 hok with ⟨-, -, -, -, -, hmsg⟩
    rw [hm2] at hmsg
    injection hmsg with hmsg
    exact hne hmsg

/-- C2 witness: the characterization applied to a concretely well-formed
envelope accepts it. -/
theorem verification_characterization_witness :
    verify_ed25519_ix_data
        (mkEd25519IxData (List.replicate 32 7) (List.replicate 32 2)
          (List.replicate 64 3))
        (List.replicate 32 7) (List.replicate 32 2) (List.replicate 64 3) =
      .ok () :=
  (verification_characterization.1 _ _ _ _).mpr (by decide)

/-! ## Claim C8 — collection lifecycle: lazy creation, then reuse -/

/-- C8: the first successful mint for an unseen `(chain, contract)` pair
creates the collection record initialized with `total_minted = 1` and
registers it once in the global registry; a successful mint for a pair
whose record exists and is initialized reuses it unchanged — the
supplied `collection_name` is ignored — increments `total_minted` by one
(saturating), and leaves the registry untouched. -/
theorem collection_lifecycle (cfg : MintConfig) (s : SolState) (a : MintArgs)
    (now : Int) (s1 : SolState) :
    (mapGet s.collections (a.source_chain, a.nft_contract) = none →
     mint_reborn cfg s a now = .ok s1 →
       mapGet s1.collections (a.source_chain, a.nft_contract) =
         some { source_chain := a.source_chain, nft_contract := a.nft_contract,
                name := a.collection_name,
                collection_asset_address := a.collection_asset,
                total_minted := 1, is_initialized := true } ∧
       s1.registry.count = satAdd64 s.registry.count ∧
       s1.registry.collections = s.registry.collections ++
         [{ source_chain := a.source_chain, nft_contract := a.nft_contract,
            collection_address := a.collection_asset, created_at := now }]) ∧
    (∀ c, mapGet s.collections (a.source_chain, a.nft_contract) = some c →
       c.is_initialized = true →
       mint_reborn cfg s a now = .ok s1 →
         mapGet s1.collections (a.source_chain, a.nft_contract) =
           some { c with total_minted := satAdd64 c.total_minted } ∧
         s1.registry = s.registry) := by
  constructor
  · intro h0 hok
    rcases (mint_reborn_ok_iff cfg s a now s1).1 hok with
      ⟨-, -, -, -, -, -, -, -, -, rfl⟩
    refine ⟨?_, ?_, ?_⟩ <;>
      simp [mint_apply, h0, mapGet_insert_self, freshCollection,
        CollectionRegistry.add_collection, satAdd64]
  · intro c hc hinit hok
    rcases (mint_reborn_ok_iff cfg s a now s1).1 hok with
      ⟨-, -, -, -, -, -, -, -, -, rfl⟩
    constructor <;> simp [mint_apply, hc, hinit, mapGet_insert_self]

/-- C8 witness: two successful demo mints of the same source collection
yield `total_minted = 1` then `2`, keep the original name, and leave a
single registry entry. -/
theorem collection_lifecycle_witness :
    mapGet (mint_apply demoCfg SolState.init demoArgs 0).collections
        (demoArgs.source_chain, demoArgs.nft_contract) =
      some { source_chain := demoArgs.source_chain,
             nft_contract := demoArgs.nft_contract,
             name := demoArgs.collection_name,
             collection_asset_address := demoArgs.collection_asset,
             total_minted := 1, is_initialized := true } ∧
    mapGet (mint_apply demoCfg (mint_apply demoCfg SolState.init demoArgs 0)
        demoArgs2 0).collections
        (demoArgs.source_chain, demoArgs.nft_contract) =
      some { source_chain := demoArgs.source_chain,
             nft_contract := demoArgs.nft_contract,
             name := demoArgs.collection_name,
             collection_asset_address := demoArgs.collection_asset,
             total_minted := 2, is_initialized := true } := by
  have h1 := (collection_lifecycle demoCfg SolState.init demoArgs 0
      (mint_apply demoCfg SolState.init demoArgs 0)).1 rfl (by decide)
  have h2 := (collection_lifecycle demoCfg
      (mint_apply demoCfg SolState.init demoArgs 0) demoArgs2 0
      (mint_apply demoCfg (mint_apply demoCfg SolState.init demoArgs 0)
        demoArgs2 0)).2 _ h1.1 rfl (by decide)
  exact ⟨h1.1, h2.1⟩

/-! ## Claim C10 — receiver sanity check -/

/-- C10: a call whose receiver is the system program address or the
all-zero pubkey (the same 32 zero bytes) can never mint; when it reaches
the input checks it fails with `invalidReceiver`, independently of the
signature material — the check precedes all verification; and
`invalidReceiver` is raised only for such receivers, so any other
receiver passes this check. -/
theorem receiver_validation (cfg : MintConfig) (s : SolState) (a : MintArgs)
    (now : Int) :
    ((a.receiver = systemProgramId ∨ a.receiver = zeroPubkey) →
        ∀ s1, ¬ mint_reborn cfg s a now = .ok s1) ∧
    (∀ e, mint_reborn cfg s a now = .error e → e = .invalidReceiver →
        a.receiver = systemProgramId ∨ a.receiver = zeroPubkey) ∧
    (a.sig_hash ∉ s.used_sigs →
     mapGet s.provenance (a.source_chain, a.nft_contract, a.token_id) = none →
     a.nft_contract.length ≤ MAX_CONTRACT_LENGTH →
     a.token_id.length ≤ MAX_TOKEN_ID_LENGTH →
     a.token_uri.length ≤ MAX_URI_LENGTH_SOL →
     a.collection_name.length ≤ MAX_NAME_LENGTH →
     ((a.receiver = systemProgramId ∨ a.receiver = zeroPubkey) ↔
        mint_reborn cfg s a now = .error .invalidReceiver)) := by
  have honly : ∀ e, mint_reborn cfg s a now = .error e →
      e = .invalidReceiver →
      a.receiver = systemProgramId ∨ a.receiver = zeroPubkey := by
    intro e he hinv
    subst hinv
    by_cases h7 : a.receiver = systemProgramId ∨ a.receiver = zeroPubkey
    · exact h7
    · exfalso
      unfold mint_reborn at he
      by_cases h1 : a.sig_hash ∈ s.used_sigs
      · rw [if_pos h1] at he
        injection he with he
        exact SolErr.noConfusion he
      · rw [if_neg h1] at he
        by_cases h2 : (mapGet s.provenance
            (a.source_chain, a.nft_contract, a.token_id)).isSome
        · rw [if_pos h2] at he
          injection he with he
          exact SolErr.noConfusion he
        · rw [if_neg h2] at he
          by_cases h3 : a.nft_contract.length > MAX_CONTRACT_LENGTH
          · rw [if_pos h3] at he
            injection he with he
            exact SolErr.noConfusion he
          · rw [if_neg h3] at he
            by_cases h4 : a.token_id.length > MAX_TOKEN_ID_LENGTH
            · rw [if_pos h4] at he
              injection he with he
              exact SolErr.noConfusion he
            · rw [if_neg h4] at he
              by_cases h5 : a.token_uri.length > MAX_URI_LENGTH_SOL
              · rw [if_pos h5] at he
                injection he with he
                exact SolErr.noConfusion he
              · rw [if_neg h5] at he
                by_cases h6 : a.collection_name.length > MAX_NAME_LENGTH
                · rw [if_pos h6] at he
                  injection he with he
                  exact SolErr.noConfusion he
                · rw [if_neg h6, if_neg h7] at he
                  by_cases h8 : sha256 a.signature ≠ a.sig_hash
                  · rw [if_pos h8] at he
                    injection he with he
                    exact SolErr.noConfusion he
                  · rw [if_neg h8] at he
                    cases hv : verify_ed25519_ix_data a.ed_ix_data
                        cfg.minting_pubkey
                        (sha256 (a.token_uri ++ a.token_id ++ a.receiver))
                        a.signature with
                    | error e2 =>
                      simp only [hv] at he
                      injection he with he
                      rcases verify_err_cases _ _ _ _ e2 hv with h | h <;>
                        subst h <;> exact SolErr.noConfusion he
                    | ok u =>
                      cases u
                      simp only [hv] at he
                      exact Except.noConfusion he
  refine ⟨?_, honly, ?_⟩
  · intro h7 s1 hok
    rcases (mint_reborn_ok_iff cfg s a now s1).1 hok with
      ⟨-, -, -, -, -, -, hno, -, -, -⟩
    exact hno h7
  · intro h1 h2 h3 h4 h5 h6
    constructor
    · intro h7
      unfold mint_reborn
      rw [if_neg h1, h2]
      rw [if_neg (by simp : ¬ (Option.isSome (none : Option Provenance) = true)),
        if_neg (by omega : ¬ a.nft_contract.length > MAX_CONTRACT_LENGTH),
        if_neg (by omega : ¬ a.token_id.length > MAX_TOKEN_ID_LENGTH),
        if_neg (by omega : ¬ a.token_uri.length > MAX_URI_LENGTH_SOL),
        if_neg (by omega : ¬ a.collection_name.length > MAX_NAME_LENGTH),
        if_pos h7]
    · intro he
      exact honly _ he rfl

/-- C10 witness: the all-zero receiver is rejected with
`invalidReceiver` on otherwise valid input. -/
theorem receiver_validation_witness :
    mint_reborn demoCfg SolState.init
        { demoArgs with receiver := List.replicate 32 0 } 0 =
      .error .invalidReceiver :=
  ((receiver_validation demoCfg SolState.init
      { demoArgs with receiver := List.replicate 32 0 } 0).2.2
    (by simp [SolState.init]) rfl (by decide) (by decide) (by decide)
    (by decide)).mp (Or.inr rfl)

end IkaTensei
